import Mathlib

/-!
# Verification of the circadianlight gamma-computation core

Shallow embedding of the circadianlight repository's core (`src/config.rs`,
`src/hour.rs`, `src/channel.rs`, and the older iteration in `src/lib.rs`).
Rust `f64` values are modelled as rationals `ℚ`: every operation of the core
is a comparison, a subtraction, an addition, a multiplication or a division,
so the embedding is exact on rational inputs.  For the NaN-sensitivity
claims, a second model of `f64` as `Option ℚ` (with `none` playing NaN,
whose comparisons are all false, as in IEEE 754) is used.

A Rust function that can `panic!` is embedded as an `Option`/`Except`
returning function, with `none` / `.error` marking the panic.
-/

/-- Error carried when the three day-phase boundaries violate the cyclic
order (mirrors `InvalidDayPhases` in `src/config.rs`). -/
structure InvalidDayPhases where
  day_start : ℚ
  dusk_start : ℚ
  night_start : ℚ
  deriving DecidableEq, Repr

/-- Error carried when channel bounds violate `min <= max` (mirrors
`InvalidChannelBounds` in `src/config.rs`). -/
structure InvalidChannelBounds where
  min : ℚ
  max : ℚ
  deriving DecidableEq, Repr

/-- Day-phase schedule: starting hours of day, dusk and night, each a
fraction of a 24h cycle (mirrors `HourConfig` in `src/config.rs`). -/
structure HourConfig where
  day_start : ℚ
  dusk_start : ℚ
  night_start : ℚ
  deriving DecidableEq, Repr

/-- The validation condition tested by `HourConfig::new` in
`src/config.rs`: one of the three cyclic rotations of
`day -> dusk -> night` holds. -/
def HourConfig.cyclicOrder (day_start dusk_start night_start : ℚ) : Prop :=
  day_start ≤ dusk_start ∧ dusk_start ≤ night_start
    ∨ night_start ≤ day_start ∧ day_start ≤ dusk_start
    ∨ dusk_start ≤ night_start ∧ night_start ≤ day_start

instance (d k n : ℚ) : Decidable (HourConfig.cyclicOrder d k n) :=
  inferInstanceAs (Decidable (d ≤ k ∧ k ≤ n ∨ n ≤ d ∧ d ≤ k ∨ k ≤ n ∧ n ≤ d))

/-- A schedule satisfying the invariant established by `HourConfig::new`. -/
def HourConfig.valid (hc : HourConfig) : Prop :=
  HourConfig.cyclicOrder hc.day_start hc.dusk_start hc.night_start

instance (hc : HourConfig) : Decidable hc.valid :=
  inferInstanceAs
    (Decidable (HourConfig.cyclicOrder hc.day_start hc.dusk_start hc.night_start))

/-- `HourConfig::new` from `src/config.rs`: accepts the triple when one of
the three cyclic rotations holds, otherwise fails with `InvalidDayPhases`
carrying all three given values. -/
def HourConfig.new (day_start dusk_start night_start : ℚ) :
    Except InvalidDayPhases HourConfig :=
  if HourConfig.cyclicOrder day_start dusk_start night_start then
    .ok { day_start, dusk_start, night_start }
  else
    .error { day_start, dusk_start, night_start }

/-- `HourConfig::default` from `src/config.rs`. -/
def HourConfig.default : HourConfig :=
  { day_start := 5/24, dusk_start := 17/24, night_start := 21/24 }

/-- Channel bounds (mirrors `ChannelConfig` in `src/config.rs`). -/
structure ChannelConfig where
  min : ℚ
  max : ℚ
  deriving DecidableEq, Repr

/-- `ChannelConfig::new` from `src/config.rs`: accepts when `min <= max`,
otherwise fails with `InvalidChannelBounds` carrying both values. -/
def ChannelConfig.new (min max : ℚ) :
    Except InvalidChannelBounds ChannelConfig :=
  if min ≤ max then .ok { min, max } else .error { min, max }

/-- Aggregate configuration (mirrors `Config` in `src/config.rs`);
`channels` is indexed red = 0, green = 1, blue = 2. -/
structure Config where
  hours : HourConfig
  channels : Fin 3 → ChannelConfig

/-- A day phase (mirrors `DayPhase` in `src/hour.rs`). -/
inductive DayPhase where
  | Day : DayPhase
  | Dusk : ℚ → DayPhase
  | Night : DayPhase
  deriving DecidableEq, Repr

/-- `DayPhase::from_current_hour` from `src/hour.rs` (the current
iteration, with strict `<` at the upper edge of the Day and Dusk interval
tests).  The final `panic!("Incorrect hour configuration")` branch is
embedded as `none`. -/
def DayPhase.from_current_hour (hour_config : HourConfig)
    (current_hour : ℚ) : Option DayPhase :=
  if hour_config.day_start ≤ hour_config.dusk_start
      ∧ hour_config.dusk_start ≤ hour_config.night_start then
    if hour_config.day_start ≤ current_hour
        ∧ current_hour < hour_config.dusk_start then
      some .Day
    else if hour_config.dusk_start ≤ current_hour
        ∧ current_hour < hour_config.night_start then
      some (.Dusk ((current_hour - hour_config.dusk_start)
        / (hour_config.night_start - hour_config.dusk_start)))
    else
      some .Night
  else if hour_config.night_start ≤ hour_config.day_start
      ∧ hour_config.day_start ≤ hour_config.dusk_start then
    if hour_config.day_start ≤ current_hour
        ∧ current_hour < hour_config.dusk_start then
      some .Day
    else if hour_config.dusk_start ≤ current_hour then
      some (.Dusk ((current_hour - hour_config.dusk_start)
        / (1 + hour_config.night_start - hour_config.dusk_start)))
    else if current_hour < hour_config.night_start then
      some (.Dusk ((1 + current_hour - hour_config.dusk_start)
        / (1 + hour_config.night_start - hour_config.dusk_start)))
    else
      some .Night
  else if hour_config.dusk_start ≤ hour_config.night_start
      ∧ hour_config.night_start ≤ hour_config.day_start then
    if hour_config.day_start ≤ current_hour
        ∨ current_hour < hour_config.dusk_start then
      some .Day
    else if hour_config.dusk_start ≤ current_hour
        ∧ current_hour < hour_config.night_start then
      some (.Dusk ((current_hour - hour_config.dusk_start)
        / (hour_config.night_start - hour_config.dusk_start)))
    else
      some .Night
  else
    none

/-- The three-rotation casework of spec §4.3, written from the spec's
words in the spec's presentation order (rotation (a), then (b), then the
remaining rotation (c)); a validated schedule always satisfies one of the
three, so the last arm carries no guard. -/
def classify_spec (hc : HourConfig) (time : ℚ) : DayPhase :=
  if hc.day_start ≤ hc.dusk_start ∧ hc.dusk_start ≤ hc.night_start then
    if hc.day_start ≤ time ∧ time < hc.dusk_start then
      .Day
    else if hc.dusk_start ≤ time ∧ time < hc.night_start then
      .Dusk ((time - hc.dusk_start) / (hc.night_start - hc.dusk_start))
    else
      .Night
  else if hc.night_start ≤ hc.day_start ∧ hc.day_start ≤ hc.dusk_start then
    if hc.day_start ≤ time ∧ time < hc.dusk_start then
      .Day
    else if hc.dusk_start ≤ time then
      .Dusk ((time - hc.dusk_start)
        / (1 + hc.night_start - hc.dusk_start))
    else if time < hc.night_start then
      .Dusk ((1 + time - hc.dusk_start)
        / (1 + hc.night_start - hc.dusk_start))
    else
      .Night
  else
    if hc.day_start ≤ time ∨ time < hc.dusk_start then
      .Day
    else if hc.dusk_start ≤ time ∧ time < hc.night_start then
      .Dusk ((time - hc.dusk_start) / (hc.night_start - hc.dusk_start))
    else
      .Night

lemma from_current_hour_eq_classify_spec (hc : HourConfig)
    (hv : hc.valid) (t : ℚ) :
    DayPhase.from_current_hour hc t = some (classify_spec hc t) := by
  unfold DayPhase.from_current_hour classify_spec
  unfold HourConfig.valid HourConfig.cyclicOrder at hv
  split_ifs <;> first | rfl | tauto

/-- The `match` body of `linear_channel_function` in `src/channel.rs`:
value of one channel at a given day phase. -/
def channel_value (channel_config : ChannelConfig) : DayPhase → ℚ
  | .Day => channel_config.max
  | .Night => channel_config.min
  | .Dusk scale =>
      channel_config.min
        + (channel_config.max - channel_config.min) * (1 - scale)

/-- `linear_channel_function` from `src/channel.rs` (the closure applied to
`current_hour`); `none` marks the panic inside the classifier. -/
def linear_channel_function (channel_config : ChannelConfig)
    (hour_config : HourConfig) (current_hour : ℚ) : Option ℚ :=
  (DayPhase.from_current_hour hour_config current_hour).map
    (channel_value channel_config)

/-- `map_channel_vector` from `src/channel.rs`. -/
def map_channel_vector {T U : Type} (input : Fin 3 → T)
    (mapper : T → U) : Fin 3 → U :=
  ![mapper (input 0), mapper (input 1), mapper (input 2)]

/-- `gamma_function` from `src/channel.rs` (the closure applied to
`current_hour`). -/
def gamma_function (config : Config) (current_hour : ℚ) :
    Fin 3 → Option ℚ :=
  map_channel_vector config.channels fun channel_config =>
    linear_channel_function channel_config config.hours current_hour

/-- `Config::default` from `src/config.rs`. -/
def Config.default : Config :=
  { hours := HourConfig.default,
    channels := ![{ min := 1, max := 1 },
      { min := 65/100, max := 1 }, { min := 45/100, max := 1 }] }

/-- `DayPhase::from_current_hour` as it appears in the older iteration
`src/lib.rs` (closed interval tests, `<=` at the upper edge); the final
`panic!` branch is `none`. -/
def DayPhase.from_current_hour_v0 (hour_config : HourConfig)
    (current_hour : ℚ) : Option DayPhase :=
  if hour_config.day_start ≤ hour_config.dusk_start
      ∧ hour_config.dusk_start ≤ hour_config.night_start then
    if hour_config.day_start ≤ current_hour
        ∧ current_hour ≤ hour_config.dusk_start then
      some .Day
    else if hour_config.dusk_start ≤ current_hour
        ∧ current_hour ≤ hour_config.night_start then
      some (.Dusk ((current_hour - hour_config.dusk_start)
        / (hour_config.night_start - hour_config.dusk_start)))
    else
      some .Night
  else if hour_config.night_start ≤ hour_config.day_start
      ∧ hour_config.day_start ≤ hour_config.dusk_start then
    if hour_config.day_start ≤ current_hour
        ∧ current_hour ≤ hour_config.dusk_start then
      some .Day
    else if hour_config.dusk_start ≤ current_hour then
      some (.Dusk ((current_hour - hour_config.dusk_start)
        / (1 + hour_config.night_start - hour_config.dusk_start)))
    else if current_hour ≤ hour_config.night_start then
      some (.Dusk ((1 + current_hour - hour_config.dusk_start)
        / (1 + hour_config.night_start - hour_config.dusk_start)))
    else
      some .Night
  else if hour_config.dusk_start ≤ hour_config.night_start
      ∧ hour_config.night_start ≤ hour_config.day_start then
    if hour_config.day_start ≤ current_hour
        ∨ current_hour ≤ hour_config.dusk_start then
      some .Day
    else if hour_config.dusk_start ≤ current_hour
        ∧ current_hour ≤ hour_config.night_start then
      some (.Dusk ((current_hour - hour_config.dusk_start)
        / (hour_config.night_start - hour_config.dusk_start)))
    else
      some .Night
  else
    none

/-- `HourConfig::with_day_start` from `src/lib.rs`: `none` marks the
`assert!` failure. -/
def HourConfig.with_day_start (hc : HourConfig) (day_start : ℚ) :
    Option HourConfig :=
  if day_start ≤ hc.dusk_start ∧ hc.dusk_start ≤ hc.night_start
      ∨ hc.night_start ≤ day_start ∧ day_start ≤ hc.dusk_start
      ∨ hc.dusk_start ≤ hc.night_start ∧ hc.night_start ≤ day_start then
    some { hc with day_start := day_start }
  else
    none

/-- `HourConfig::with_dusk_start` from `src/lib.rs`. -/
def HourConfig.with_dusk_start (hc : HourConfig) (dusk_start : ℚ) :
    Option HourConfig :=
  if hc.day_start ≤ dusk_start ∧ dusk_start ≤ hc.night_start
      ∨ hc.night_start ≤ hc.day_start ∧ hc.day_start ≤ dusk_start
      ∨ dusk_start ≤ hc.night_start ∧ hc.night_start ≤ hc.day_start then
    some { hc with dusk_start := dusk_start }
  else
    none

/-- `HourConfig::with_night_start` from `src/lib.rs`. -/
def HourConfig.with_night_start (hc : HourConfig) (night_start : ℚ) :
    Option HourConfig :=
  if hc.day_start ≤ hc.dusk_start ∧ hc.dusk_start ≤ night_start
      ∨ night_start ≤ hc.day_start ∧ hc.day_start ≤ hc.dusk_start
      ∨ hc.dusk_start ≤ night_start ∧ night_start ≤ hc.day_start then
    some { hc with night_start := night_start }
  else
    none

/-- `ChannelConfig::with_min` from `src/lib.rs`. -/
def ChannelConfig.with_min (cc : ChannelConfig) (min : ℚ) :
    Option ChannelConfig :=
  if min ≤ cc.max then some { cc with min := min } else none

/-- `ChannelConfig::with_max` from `src/lib.rs` (the assertion tests
`max >= self.min`). -/
def ChannelConfig.with_max (cc : ChannelConfig) (max : ℚ) :
    Option ChannelConfig :=
  if cc.min ≤ max then some { cc with max := max } else none

/-- An `f64` at the fidelity the NaN claims need: `some q` is a finite
float value (exactly represented as a rational), `none` is NaN.  IEEE 754
makes every ordered comparison against NaN false, which `fle` mirrors. -/
def FloatVal : Type := Option ℚ

instance : DecidableEq FloatVal :=
  inferInstanceAs (DecidableEq (Option ℚ))

/-- IEEE `<=` on the `FloatVal` model: false whenever either side is NaN. -/
def fle : FloatVal → FloatVal → Bool
  | some x, some y => decide (x ≤ y)
  | _, _ => false

/-- `InvalidDayPhases` over the `FloatVal` model. -/
structure InvalidDayPhasesF where
  day_start : FloatVal
  dusk_start : FloatVal
  night_start : FloatVal
  deriving DecidableEq

/-- `InvalidChannelBounds` over the `FloatVal` model. -/
structure InvalidChannelBoundsF where
  min : FloatVal
  max : FloatVal
  deriving DecidableEq

/-- `HourConfig` over the `FloatVal` model. -/
structure HourConfigF where
  day_start : FloatVal
  dusk_start : FloatVal
  night_start : FloatVal
  deriving DecidableEq

/-- `ChannelConfig` over the `FloatVal` model. -/
structure ChannelConfigF where
  min : FloatVal
  max : FloatVal
  deriving DecidableEq

/-- `HourConfig::new` from `src/config.rs`, over the `FloatVal` model of
`f64` (same comparison structure, with IEEE NaN semantics). -/
def HourConfigF.new (day_start dusk_start night_start : FloatVal) :
    Except InvalidDayPhasesF HourConfigF :=
  if (fle day_start dusk_start && fle dusk_start night_start
      || fle night_start day_start && fle day_start dusk_start
      || fle dusk_start night_start && fle night_start day_start) then
    .ok { day_start, dusk_start, night_start }
  else
    .error { day_start, dusk_start, night_start }

/-- `ChannelConfig::new` from `src/config.rs`, over the `FloatVal` model. -/
def ChannelConfigF.new (min max : FloatVal) :
    Except InvalidChannelBoundsF ChannelConfigF :=
  if fle min max then .ok { min, max } else .error { min, max }

lemma HourConfig.new_ok {d k n : ℚ} {hc : HourConfig}
    (h : HourConfig.new d k n = .ok hc) :
    hc = ⟨d, k, n⟩ ∧ hc.valid := by
  unfold HourConfig.new at h
  split_ifs at h with hcond
  injection h with h
  subst h
  exact ⟨rfl, hcond⟩

/-- C1: for every schedule accepted by `HourConfig::new` and every
`current_hour` in `[0,1)`, `DayPhase::from_current_hour` returns exactly
the phase prescribed by the spec's three-rotation casework (rotation (a)
`day ≤ dusk ≤ night`, rotation (b) `night ≤ day ≤ dusk` with the
midnight-wrapping dusk formulas, rotation (c) `dusk ≤ night ≤ day` with
the wrapped day interval). -/
theorem C1_classifier_matches_casework (d k n : ℚ) (hc : HourConfig)
    (hok : HourConfig.new d k n = .ok hc)
    (t : ℚ) (h0 : 0 ≤ t) (h1 : t < 1) :
    DayPhase.from_current_hour hc t = some (classify_spec hc t) :=
  from_current_hour_eq_classify_spec hc (HourConfig.new_ok hok).2 t

/-- Witness for C1 at the default schedule and noon. -/
theorem C1_classifier_matches_casework_witness :
    DayPhase.from_current_hour HourConfig.default (12/24)
      = some (classify_spec HourConfig.default (12/24)) :=
  C1_classifier_matches_casework (5/24) (17/24) (21/24) HourConfig.default
    (by norm_num [HourConfig.new, HourConfig.cyclicOrder, HourConfig.default])
    (12/24) (by norm_num) (by norm_num)

/-- C2: `HourConfig::new` succeeds exactly when one of the three cyclic
rotations holds, fails with `InvalidDayPhases` carrying all three given
values otherwise; `new(0.5,0.1,0.7)` fails while `new(0.1,0.5,0.7)`,
`new(0.5,0.7,0.1)` and `new(0.7,0.1,0.5)` succeed. -/
theorem C2_hour_config_validation (d k n : ℚ) :
    ((∃ hc, HourConfig.new d k n = .ok hc)
      ↔ (d ≤ k ∧ k ≤ n ∨ n ≤ d ∧ d ≤ k ∨ k ≤ n ∧ n ≤ d))
    ∧ (¬ (d ≤ k ∧ k ≤ n ∨ n ≤ d ∧ d ≤ k ∨ k ≤ n ∧ n ≤ d) →
        HourConfig.new d k n = .error ⟨d, k, n⟩)
    ∧ HourConfig.new (1/2) (1/10) (7/10) = .error ⟨1/2, 1/10, 7/10⟩
    ∧ HourConfig.new (1/10) (1/2) (7/10) = .ok ⟨1/10, 1/2, 7/10⟩
    ∧ HourConfig.new (1/2) (7/10) (1/10) = .ok ⟨1/2, 7/10, 1/10⟩
    ∧ HourConfig.new (7/10) (1/10) (1/2) = .ok ⟨7/10, 1/10, 1/2⟩ := by
  refine ⟨?_, ?_, ?_, ?_, ?_, ?_⟩
  · unfold HourConfig.new
    split_ifs with hcond
    · exact ⟨fun _ => hcond, fun _ => ⟨_, rfl⟩⟩
    · exact ⟨fun ⟨_, habs⟩ => habs.elim, fun h => absurd h hcond⟩
  · intro h
    unfold HourConfig.new
    exact if_neg h
  · norm_num [HourConfig.new, HourConfig.cyclicOrder]
  · norm_num [HourConfig.new, HourConfig.cyclicOrder]
  · norm_num [HourConfig.new, HourConfig.cyclicOrder]
  · norm_num [HourConfig.new, HourConfig.cyclicOrder]

/-- Witness for C2: the failing example, with the hypothesis of the
second conjunct discharged concretely. -/
theorem C2_hour_config_validation_witness :
    HourConfig.new (1/2) (1/10) (7/10) = .error ⟨1/2, 1/10, 7/10⟩ :=
  (C2_hour_config_validation (1/2) (1/10) (7/10)).2.1 (by norm_num)

/-- C3: `ChannelConfig::new` succeeds exactly when `min ≤ max` and fails
with `InvalidChannelBounds` carrying both values otherwise;
`new(0.9,0.1)` fails while `new(0.1,0.9)` and `new(1.0,1.0)` succeed. -/
theorem C3_channel_config_validation (mn mx : ℚ) :
    ((∃ cc, ChannelConfig.new mn mx = .ok cc) ↔ mn ≤ mx)
    ∧ (mx < mn → ChannelConfig.new mn mx = .error ⟨mn, mx⟩)
    ∧ ChannelConfig.new (9/10) (1/10) = .error ⟨9/10, 1/10⟩
    ∧ ChannelConfig.new (1/10) (9/10) = .ok ⟨1/10, 9/10⟩
    ∧ ChannelConfig.new 1 1 = .ok ⟨1, 1⟩ := by
  refine ⟨?_, ?_, ?_, ?_, ?_⟩
  · unfold ChannelConfig.new
    split_ifs with hcond
    · exact ⟨fun _ => hcond, fun _ => ⟨_, rfl⟩⟩
    · exact ⟨fun ⟨_, habs⟩ => habs.elim, fun h => absurd h hcond⟩
  · intro h
    unfold ChannelConfig.new
    exact if_neg (not_le.mpr h)
  · norm_num [ChannelConfig.new]
  · norm_num [ChannelConfig.new]
  · norm_num [ChannelConfig.new]

/-- Witness for C3: the failing example, with the hypothesis of the
second conjunct discharged concretely. -/
theorem C3_channel_config_validation_witness :
    ChannelConfig.new (9/10) (1/10) = .error ⟨9/10, 1/10⟩ :=
  (C3_channel_config_validation (9/10) (1/10)).2.1 (by norm_num)

/-- C4: for every valid channel configuration and validated schedule, the
channel function maps phase `Day` to `max`, `Night` to `min`, and
`Dusk progress` to `min + (max - min) * (1 - progress)`; and the
hour-level channel function is exactly this map applied to the phase the
classifier computes. -/
theorem C4_channel_curve_values (cc : ChannelConfig) (hc : HourConfig)
    (hcc : cc.min ≤ cc.max) (hv : hc.valid) :
    channel_value cc .Day = cc.max
    ∧ channel_value cc .Night = cc.min
    ∧ (∀ p, channel_value cc (.Dusk p)
        = cc.min + (cc.max - cc.min) * (1 - p))
    ∧ ∀ h p, DayPhase.from_current_hour hc h = some p →
        linear_channel_function cc hc h = some (channel_value cc p) := by
  refine ⟨rfl, rfl, fun p => rfl, fun h p hp => ?_⟩
  unfold linear_channel_function
  rw [hp]
  rfl

/-- Witness for C4 at concrete bounds and the default schedule. -/
theorem C4_channel_curve_values_witness :
    channel_value ⟨2/5, 9/10⟩ .Day = (9/10 : ℚ)
    ∧ channel_value ⟨2/5, 9/10⟩ .Night = (2/5 : ℚ)
    ∧ (∀ p, channel_value ⟨2/5, 9/10⟩ (.Dusk p)
        = 2/5 + (9/10 - 2/5) * (1 - p))
    ∧ ∀ h p, DayPhase.from_current_hour HourConfig.default h = some p →
        linear_channel_function ⟨2/5, 9/10⟩ HourConfig.default h
          = some (channel_value ⟨2/5, 9/10⟩ p) :=
  C4_channel_curve_values ⟨2/5, 9/10⟩ HourConfig.default (by norm_num)
    (by norm_num [HourConfig.valid, HourConfig.cyclicOrder,
      HourConfig.default])

/-- C5: for every configuration and hour in `[0,1)`, `gamma_function`
produces exactly the 3-vector of per-channel `linear_channel_function`
values, and a single phase value (the one the classifier computes for
that hour) drives all three channel interpolations: the components
differ only through their channel bounds. -/
theorem C5_gamma_componentwise (cfg : Config) (t : ℚ)
    (h0 : 0 ≤ t) (h1 : t < 1) :
    (∀ i : Fin 3, gamma_function cfg t i
        = linear_channel_function (cfg.channels i) cfg.hours t)
    ∧ ∀ p, DayPhase.from_current_hour cfg.hours t = some p →
        ∀ i : Fin 3, gamma_function cfg t i
          = some (channel_value (cfg.channels i) p) := by
  have hcomp : ∀ i : Fin 3, gamma_function cfg t i
      = linear_channel_function (cfg.channels i) cfg.hours t := by
    intro i
    fin_cases i <;> rfl
  refine ⟨hcomp, fun p hp i => ?_⟩
  rw [hcomp i]
  unfold linear_channel_function
  rw [hp]
  rfl

/-- Witness for C5 at the default configuration and noon. -/
theorem C5_gamma_componentwise_witness :
    (∀ i : Fin 3, gamma_function Config.default (12/24) i
        = linear_channel_function (Config.default.channels i)
            Config.default.hours (12/24))
    ∧ ∀ p, DayPhase.from_current_hour Config.default.hours (12/24)
          = some p →
        ∀ i : Fin 3, gamma_function Config.default (12/24) i
          = some (channel_value (Config.default.channels i) p) :=
  C5_gamma_componentwise Config.default (12/24)
    (by norm_num) (by norm_num)

/-- C7: for every schedule produced by a successful `HourConfig::new`,
the classifier never reaches the final `panic!` branch (embedded as
`none`): one of the three rotation guards always matches. -/
theorem C7_panic_branch_unreachable (d k n : ℚ) (hc : HourConfig)
    (hok : HourConfig.new d k n = .ok hc) (t : ℚ) :
    (DayPhase.from_current_hour hc t).isSome := by
  rw [from_current_hour_eq_classify_spec hc (HourConfig.new_ok hok).2 t]
  rfl

/-- Witness for C7 at the default schedule and midnight. -/
theorem C7_panic_branch_unreachable_witness :
    (DayPhase.from_current_hour HourConfig.default 0).isSome :=
  C7_panic_branch_unreachable (5/24) (17/24) (21/24) HourConfig.default
    (by norm_num [HourConfig.new, HourConfig.cyclicOrder,
      HourConfig.default]) 0

/-- C8: the two iterations of the classifier disagree: at the default
schedule (valid in both iterations, rotation (a)) and
`current_hour = dusk_start = 17/24`, the `src/hour.rs` iteration
(strict `<` at the upper edge) classifies `Dusk 0` while the
`src/lib.rs` iteration (`<=` at the upper edge) classifies `Day`. -/
theorem C8_iterations_disagree_at_dusk_start :
    HourConfig.valid HourConfig.default
    ∧ (0 : ℚ) ≤ 17/24 ∧ (17/24 : ℚ) < 1
    ∧ HourConfig.default.dusk_start = 17/24
    ∧ DayPhase.from_current_hour HourConfig.default (17/24)
        = some (.Dusk 0)
    ∧ DayPhase.from_current_hour_v0 HourConfig.default (17/24)
        = some .Day
    ∧ DayPhase.from_current_hour HourConfig.default (17/24)
        ≠ DayPhase.from_current_hour_v0 HourConfig.default (17/24) := by
  norm_num [HourConfig.valid, HourConfig.cyclicOrder, HourConfig.default,
    DayPhase.from_current_hour, DayPhase.from_current_hour_v0]
  exact fun h => DayPhase.noConfusion h

lemma isSome_ite_some {α : Type} (p : Prop) [Decidable p] (a : α) :
    (if p then some a else none).isSome ↔ p := by
  split_ifs with h <;> simp [h]

/-- C9: each field-update operation (`with_day_start`, `with_dusk_start`,
`with_night_start`, `with_min`, `with_max`) succeeds exactly when the
full invariant holds with the replaced field, and on success returns the
receiver with only the named field replaced (the receiver itself, a pure
value, is untouched). -/
theorem C9_field_updates_replace_one_field (hc : HourConfig)
    (cc : ChannelConfig) (d k n m x : ℚ) :
    (∀ hc', hc.with_day_start d = some hc' →
        hc' = { hc with day_start := d })
    ∧ ((hc.with_day_start d).isSome ↔
        HourConfig.valid { hc with day_start := d })
    ∧ (∀ hc', hc.with_dusk_start k = some hc' →
        hc' = { hc with dusk_start := k })
    ∧ ((hc.with_dusk_start k).isSome ↔
        HourConfig.valid { hc with dusk_start := k })
    ∧ (∀ hc', hc.with_night_start n = some hc' →
        hc' = { hc with night_start := n })
    ∧ ((hc.with_night_start n).isSome ↔
        HourConfig.valid { hc with night_start := n })
    ∧ (∀ cc', cc.with_min m = some cc' → cc' = { cc with min := m })
    ∧ ((cc.with_min m).isSome ↔
        ({ cc with min := m } : ChannelConfig).min
          ≤ ({ cc with min := m } : ChannelConfig).max)
    ∧ (∀ cc', cc.with_max x = some cc' → cc' = { cc with max := x })
    ∧ ((cc.with_max x).isSome ↔
        ({ cc with max := x } : ChannelConfig).min
          ≤ ({ cc with max := x } : ChannelConfig).max) := by
  refine ⟨?_, ?_, ?_, ?_, ?_, ?_, ?_, ?_, ?_, ?_⟩
  · intro hc' h
    unfold HourConfig.with_day_start at h
    split_ifs at h
    injection h with h
    exact h.symm
  · unfold HourConfig.with_day_start
    exact isSome_ite_some _ _
  · intro hc' h
    unfold HourConfig.with_dusk_start at h
    split_ifs at h
    injection h with h
    exact h.symm
  · unfold HourConfig.with_dusk_start
    exact isSome_ite_some _ _
  · intro hc' h
    unfold HourConfig.with_night_start at h
    split_ifs at h
    injection h with h
    exact h.symm
  · unfold HourConfig.with_night_start
    exact isSome_ite_some _ _
  · intro cc' h
    unfold ChannelConfig.with_min at h
    split_ifs at h
    injection h with h
    exact h.symm
  · unfold ChannelConfig.with_min
    exact isSome_ite_some _ _
  · intro cc' h
    unfold ChannelConfig.with_max at h
    split_ifs at h
    injection h with h
    exact h.symm
  · unfold ChannelConfig.with_max
    exact isSome_ite_some _ _

/-- Witness for C9: two updates evaluated concretely (a schedule update
that revalidates and succeeds, and a channel update likewise). -/
theorem C9_field_updates_replace_one_field_witness :
    (HourConfig.default.with_day_start (6/24)).isSome
    ∧ (ChannelConfig.with_min ⟨0, 1⟩ (1/2)).isSome :=
  ⟨(C9_field_updates_replace_one_field HourConfig.default ⟨0, 1⟩
      (6/24) 0 0 (1/2) 0).2.1.mpr
    (by norm_num [HourConfig.valid, HourConfig.cyclicOrder,
      HourConfig.default]),
   (C9_field_updates_replace_one_field HourConfig.default ⟨0, 1⟩
      (6/24) 0 0 (1/2) 0).2.2.2.2.2.2.2.1.mpr (by norm_num)⟩

lemma fle_none_left (b : FloatVal) : fle none b = false := by
  cases b <;> rfl

lemma fle_none_right (a : FloatVal) : fle a none = false := by
  cases a <;> rfl

/-- C10: construction validates only the ordering relations, never
membership in the documented ranges — `HourConfig::new` accepts any
triple satisfying a rotation (e.g. `new(2,3,4)`), and `ChannelConfig::new`
accepts any `min ≤ max` (e.g. `new(-1,2)`); conversely, in the
NaN-faithful float model every comparison against NaN is false, so
construction with a NaN input always fails with the validation error. -/
theorem C10_ordering_only_validation_and_nan (d k n mn mx : FloatVal) :
    HourConfig.new 2 3 4 = .ok ⟨2, 3, 4⟩
    ∧ ChannelConfig.new (-1) 2 = .ok ⟨-1, 2⟩
    ∧ (∀ a b c : ℚ, HourConfig.cyclicOrder a b c →
        HourConfig.new a b c = .ok ⟨a, b, c⟩)
    ∧ (∀ a b : ℚ, a ≤ b → ChannelConfig.new a b = .ok ⟨a, b⟩)
    ∧ ((d = none ∨ k = none ∨ n = none) →
        HourConfigF.new d k n = .error ⟨d, k, n⟩)
    ∧ ((mn = none ∨ mx = none) →
        ChannelConfigF.new mn mx = .error ⟨mn, mx⟩) := by
  refine ⟨?_, ?_, fun a b c h => ?_, fun a b h => ?_, ?_, ?_⟩
  · norm_num [HourConfig.new, HourConfig.cyclicOrder]
  · norm_num [ChannelConfig.new]
  · unfold HourConfig.new
    exact if_pos h
  · unfold ChannelConfig.new
    exact if_pos h
  · intro hnan
    unfold HourConfigF.new
    rcases hnan with h | h | h <;> subst h <;>
      simp [fle_none_left, fle_none_right]
  · intro hnan
    unfold ChannelConfigF.new
    rcases hnan with h | h <;> subst h <;>
      simp [fle_none_left, fle_none_right]

/-- Witness for C10: both NaN failures evaluated at concrete inputs. -/
theorem C10_ordering_only_validation_and_nan_witness :
    HourConfigF.new none (some 0) (some 1)
        = .error ⟨none, some 0, some 1⟩
    ∧ ChannelConfigF.new (some 0) none = .error ⟨some 0, none⟩ :=
  ⟨(C10_ordering_only_validation_and_nan none (some 0) (some 1)
      (some 0) none).2.2.2.2.1 (Or.inl rfl),
   (C10_ordering_only_validation_and_nan none (some 0) (some 1)
      (some 0) none).2.2.2.2.2 (Or.inr rfl)⟩

lemma from_current_hour_dusk_region (hc : HourConfig) (hv : hc.valid)
    (hd : hc.dusk_start < hc.night_start) {h : ℚ}
    (h1 : hc.dusk_start ≤ h) (h2 : h < hc.night_start) :
    DayPhase.from_current_hour hc h
      = some (.Dusk ((h - hc.dusk_start)
          / (hc.night_start - hc.dusk_start))) := by
  unfold HourConfig.valid HourConfig.cyclicOrder at hv
  unfold DayPhase.from_current_hour
  rcases hv with ⟨ha1, ha2⟩ | ⟨hb1, hb2⟩ | ⟨hr1, hr2⟩
  · rw [if_pos ⟨ha1, ha2⟩,
      if_neg (fun hcon => absurd hcon.2 (not_lt.mpr h1)),
      if_pos ⟨h1, h2⟩]
  · exact absurd (hb1.trans hb2) (not_le.mpr hd)
  · rw [if_neg (fun hcon => absurd (hr2.trans hcon.1) (not_le.mpr hd)),
      if_neg (fun hcon => absurd (hcon.1.trans hcon.2) (not_le.mpr hd)),
      if_pos ⟨hr1, hr2⟩, if_neg ?_, if_pos ⟨h1, h2⟩]
    rintro (hday | hdusk)
    · exact absurd hday (not_le.mpr (lt_of_lt_of_le h2 hr2))
    · exact absurd hdusk (not_lt.mpr h1)

/-- C6: for every validated schedule with a non-empty dusk window and
valid channel bounds, the channel value is continuous at the day-to-dusk
boundary: at `current_hour = dusk_start` the classifier yields `Dusk 0`
and the channel value is `max`, the value of the whole Day region; and
as `current_hour` approaches `night_start` from below the channel value
approaches `min` (stated as an epsilon-delta limit). -/
theorem C6_continuity_at_phase_boundaries (hc : HourConfig)
    (cc : ChannelConfig) (hv : hc.valid)
    (hd : hc.dusk_start < hc.night_start) (hcc : cc.min ≤ cc.max) :
    DayPhase.from_current_hour hc hc.dusk_start = some (.Dusk 0)
    ∧ linear_channel_function cc hc hc.dusk_start = some cc.max
    ∧ (∀ h, DayPhase.from_current_hour hc h = some .Day →
        linear_channel_function cc hc h = some cc.max)
    ∧ ∀ ε : ℚ, 0 < ε → ∃ δ : ℚ, 0 < δ ∧
        ∀ h, hc.night_start - δ < h → h < hc.night_start →
          ∃ v, linear_channel_function cc hc h = some v
            ∧ |v - cc.min| < ε := by
  have hW : (0:ℚ) < hc.night_start - hc.dusk_start := sub_pos.mpr hd
  have hdusk0 : DayPhase.from_current_hour hc hc.dusk_start
      = some (.Dusk 0) := by
    rw [from_current_hour_dusk_region hc hv hd le_rfl hd]
    simp
  refine ⟨hdusk0, ?_, ?_, ?_⟩
  · unfold linear_channel_function
    rw [hdusk0]
    simp only [Option.map_some', channel_value, Option.some.injEq]
    ring
  · intro h hp
    unfold linear_channel_function
    rw [hp]
    rfl
  · intro ε hε
    have hM : (0:ℚ) ≤ cc.max - cc.min := sub_nonneg.mpr hcc
    have hM1 : (0:ℚ) < cc.max - cc.min + 1 := by linarith
    have hApos : (0:ℚ)
        < ε * (hc.night_start - hc.dusk_start) / (cc.max - cc.min + 1) :=
      div_pos (mul_pos hε hW) hM1
    refine ⟨min (hc.night_start - hc.dusk_start)
      (ε * (hc.night_start - hc.dusk_start) / (cc.max - cc.min + 1)),
      lt_min hW hApos, ?_⟩
    intro h hh1 hh2
    have hδW := min_le_left (hc.night_start - hc.dusk_start)
      (ε * (hc.night_start - hc.dusk_start) / (cc.max - cc.min + 1))
    have hδA := min_le_right (hc.night_start - hc.dusk_start)
      (ε * (hc.night_start - hc.dusk_start) / (cc.max - cc.min + 1))
    have hdle : hc.dusk_start ≤ h := by linarith
    have hfc := from_current_hour_dusk_region hc hv hd hdle hh2
    refine ⟨channel_value cc (.Dusk ((h - hc.dusk_start)
      / (hc.night_start - hc.dusk_start))), ?_, ?_⟩
    · unfold linear_channel_function
      rw [hfc]
      rfl
    · have hveq : channel_value cc (.Dusk ((h - hc.dusk_start)
          / (hc.night_start - hc.dusk_start))) - cc.min
          = (cc.max - cc.min) * ((hc.night_start - h)
              / (hc.night_start - hc.dusk_start)) := by
        simp only [channel_value]
        field_simp
        ring
      rw [hveq, abs_of_nonneg (mul_nonneg hM
        (div_nonneg (sub_nonneg.mpr hh2.le) hW.le))]
      have h3 : hc.night_start - h
          < ε * (hc.night_start - hc.dusk_start)
              / (cc.max - cc.min + 1) := by
        linarith
      have h4 : (ε * (hc.night_start - hc.dusk_start)
            / (cc.max - cc.min + 1)) * (cc.max - cc.min + 1)
          = ε * (hc.night_start - hc.dusk_start) :=
        div_mul_cancel₀ _ (ne_of_gt hM1)
      have h5 := mul_le_mul_of_nonneg_left h3.le hM
      rw [← mul_div_assoc, div_lt_iff₀ hW]
      linarith

/-- Witness for C6 at the default schedule and concrete channel bounds. -/
theorem C6_continuity_at_phase_boundaries_witness :
    DayPhase.from_current_hour HourConfig.default
        HourConfig.default.dusk_start = some (.Dusk 0)
    ∧ linear_channel_function ⟨2/5, 9/10⟩ HourConfig.default
        HourConfig.default.dusk_start = some (9/10 : ℚ)
    ∧ (∀ h, DayPhase.from_current_hour HourConfig.default h
          = some .Day →
        linear_channel_function ⟨2/5, 9/10⟩ HourConfig.default h
          = some (9/10 : ℚ))
    ∧ ∀ ε : ℚ, 0 < ε → ∃ δ : ℚ, 0 < δ ∧
        ∀ h, HourConfig.default.night_start - δ < h →
          h < HourConfig.default.night_start →
          ∃ v, linear_channel_function ⟨2/5, 9/10⟩ HourConfig.default h
              = some v ∧ |v - (2/5 : ℚ)| < ε :=
  C6_continuity_at_phase_boundaries HourConfig.default ⟨2/5, 9/10⟩
    (by norm_num [HourConfig.valid, HourConfig.cyclicOrder,
      HourConfig.default])
    (by norm_num [HourConfig.default]) (by norm_num)
